import Mathlib

/-!
Shallow embedding of the plant-dashboard data-loading script (src/main.py).

The script loads per-school environment CSV files and a multi-sheet growth
workbook from a local directory, matching filenames tolerant of Unicode
normalization (NFC vs NFD), and then aggregates the resulting tables.

Modelling conventions:
* Filenames are Lean strings; Unicode NFC normalization is modelled on
  codepoint lists by the standard algorithmic Hangul canonical composition
  (the script's filenames are Korean, where NFC is exactly this algorithm).
* A pandas DataFrame is a `Table`: a header row of column names and a list
  of rows of cells.  Cells are raw strings, parsed datetimes, or numbers
  (numbers as rationals; no claim here depends on float rounding).
* Python exceptions are modelled by `Except String`: a function that can
  raise returns `Except.error msg`.  Streamlit's `st.error` display calls
  are collected as a list of message strings in the results, since several
  claims distinguish displayed messages from returned report values.
* `pd.to-datetime` parsing of a time string is modelled as parsing a
  decimal numeral; the claims checked here depend only on whether parsing
  succeeded, never on which concrete strings are parseable.
-/

set_option autoImplicit false

namespace PlantDash

/-! ## Unicode NFC on Hangul (models unicodedata.normalize of "NFC") -/

/-- Leading-consonant jamo (choseong) range U+1100..U+1112. -/
def isL (c : Nat) : Bool := 0x1100 ≤ c && c ≤ 0x1112

/-- Vowel jamo (jungseong) range U+1161..U+1175. -/
def isV (c : Nat) : Bool := 0x1161 ≤ c && c ≤ 0x1175

/-- Trailing-consonant jamo (jongseong) range U+11A8..U+11C2. -/
def isT (c : Nat) : Bool := 0x11A8 ≤ c && c ≤ 0x11C2

/-- Precomposed Hangul syllable with no trailing consonant (an LV syllable),
to which a trailing jamo may still canonically compose. -/
def isLV (c : Nat) : Bool :=
  0xAC00 ≤ c && c ≤ 0xD7A3 && (c - 0xAC00) % 28 == 0

/-- Canonical composition against the next codepoint: the first argument is
the codepoint currently being composed, the second the remaining input.
Composes an L jamo followed by a V jamo into an LV syllable and an LV
syllable followed by a T jamo into an LVT syllable. -/
def composeStep : Nat → List Nat → List Nat
  | a, [] => [a]
  | a, b :: rest =>
    if isL a && isV b then
      composeStep (0xAC00 + (a - 0x1100) * 588 + (b - 0x1161) * 28) rest
    else if isLV a && isT b then
      composeStep (a + (b - 0x11A7)) rest
    else
      a :: composeStep b rest

/-- Canonical composition pass over a codepoint sequence, exactly the
algorithmic Hangul part of Unicode NFC. -/
def composeHangul : List Nat → List Nat
  | [] => []
  | a :: rest => composeStep a rest

/-- Embeds normalize_name: NFC normalization of a filename.  The Python
function returns a string; equality of the returned strings is all the
script ever uses, which is preserved by returning the composed codepoint
sequence instead. -/
def normalize_name (name : String) : List Nat :=
  composeHangul (name.data.map Char.toNat)

/-! ## String helpers -/

/-- When pat is a leading run of l, the remainder of l after it; otherwise
none. -/
def dropPre : List Char → List Char → Option (List Char)
  | [], l => some l
  | _ :: _, [] => none
  | a :: pat, b :: l => if a = b then dropPre pat l else none

/-- Replaces every non-overlapping occurrence of pat, scanning left to
right, as Python str.replace does.  The fuel argument (instantiated with
the input length, which suffices for any non-empty pattern) only makes the
recursion structural so that the kernel can evaluate it. -/
def replaceFuel (pat repl : List Char) : Nat → List Char → List Char
  | _, [] => []
  | 0, l => l
  | fuel + 1, c :: cs =>
    match dropPre pat (c :: cs) with
    | some rest => repl ++ replaceFuel pat repl fuel rest
    | none => c :: replaceFuel pat repl fuel cs

/-- Embeds Python str.replace (all occurrences, left to right). -/
def str_replace (s pat repl : String) : String :=
  ⟨replaceFuel pat.data repl.data s.data.length s.data⟩

/-- Value of a run of decimal digits, or none when a non-digit occurs. -/
def digitsToNat (acc : Nat) : List Char → Option Nat
  | [] => some acc
  | c :: cs => if c.isDigit then digitsToNat (acc * 10 + (c.toNat - 48)) cs else none

/-- Models pd.to-datetime string parsing as parsing a non-empty decimal
numeral into a timestamp; the claims depend only on success vs failure of
parsing, never on which strings parse. -/
def parse_dt (s : String) : Option Nat :=
  match s.data with
  | [] => none
  | c :: cs => digitsToNat 0 (c :: cs)

/-! ## Tables (pandas DataFrames) -/

/-- One cell of a table: a raw string as read from the file, a parsed
datetime (timestamp), a number, or a missing value (NaN fill). -/
inductive Cell where
  | str (s : String)
  | dt (t : Nat)
  | num (q : ℚ)
  | na
deriving Repr, DecidableEq

/-- A rectangular table: column names plus rows of cells. -/
structure Table where
  header : List String
  rows : List (List Cell)
deriving Repr, DecidableEq

/-! ## Filesystem model -/

/-- Content of a file on disk, as seen by the parsers: a well-formed CSV
(holding the table pd.read-csv would produce), a well-formed multi-sheet
workbook, or bytes on which the parser raises. -/
inductive FileData where
  | csv (t : Table)
  | xlsx (sheets : List (String × Table))
  | malformed (desc : String)
deriving Repr, DecidableEq

/-- A directory entry: an on-disk filename (whose bytes may be NFC or NFD)
and the file's content. -/
structure FileEntry where
  name : String
  content : FileData
deriving Repr, DecidableEq

/-- State of the data directory: absent, or present with its entries in
enumeration order. -/
inductive FS where
  | absent
  | present (entries : List FileEntry)
deriving Repr, DecidableEq

/-- Embeds Path.iterdir: lists the directory, raising FileNotFoundError
when the directory does not exist. -/
def iterdir : FS → Except String (List FileEntry)
  | .absent => .error "FileNotFoundError"
  | .present es => .ok es

/-- Embeds Path.exists. -/
def fsExists : FS → Bool
  | .absent => false
  | .present _ => true

/-! ## Parsers -/

/-- Embeds pd.read-csv: yields the file's table, raising on malformed or
non-CSV content. -/
def read_csv : FileData → Except String Table
  | .csv t => .ok t
  | .xlsx _ => .error "ParserError: not a CSV file"
  | .malformed d => .error d

/-- Embeds pd.ExcelFile / per-sheet pd.read-excel: yields the sheets of a
workbook, raising on anything that is not a well-formed workbook. -/
def excel_file : FileData → Except String (List (String × Table))
  | .xlsx sheets => .ok sheets
  | .csv _ => .error "ValueError: not an Excel file"
  | .malformed d => .error d

/-- Embeds pd.to-datetime on one cell: parses a raw string into a datetime,
raising when unparseable; an already-parsed datetime passes through. -/
def to_datetime_cell : Cell → Except String Cell
  | .str s =>
    match parse_dt s with
    | some n => .ok (.dt n)
    | none => .error ("ParserError: cannot parse datetime " ++ s)
  | .dt n => .ok (.dt n)
  | .num _ => .error "ParserError: cannot parse datetime from number"
  | .na => .error "ParserError: cannot parse datetime from NaN"

/-- Applies a fallible function to every element in order, propagating the
first raised exception — the behavior of a Python loop whose body may
raise. -/
def mapExcept {α β : Type} (f : α → Except String β) : List α → Except String (List β)
  | [] => .ok []
  | a :: as =>
    match f a with
    | .error e => .error e
    | .ok b =>
      match mapExcept f as with
      | .error e => .error e
      | .ok bs => .ok (b :: bs)

/-- Converts the cell at column index i of one row to a datetime,
propagating a parse failure. -/
def convert_cell (i : Nat) (r : List Cell) : Except String (List Cell) :=
  match r[i]? with
  | none => .error "KeyError: time"
  | some c =>
    match to_datetime_cell c with
    | .error e => .error e
    | .ok c' => .ok (r.set i c')

/-- Embeds the statement assigning pd.to-datetime of column "time" back
into the frame: looks up the column (KeyError when absent) and converts
every cell in it, propagating any parse failure. -/
def convert_time (df : Table) : Except String Table :=
  match df.header.findIdx? (· == "time") with
  | none => .error "KeyError: time"
  | some i =>
    match mapExcept (convert_cell i) df.rows with
    | .error e => .error e
    | .ok rows => .ok { df with rows := rows }

/-! ## File resolution and batch loading -/

/-- Embeds find_file_by_name: NFC-normalizes the target, enumerates the
directory, and returns the first entry whose NFC-normalized name equals
the normalized target, or none when no entry matches.  Enumerating an
absent directory raises (the iterdir call). -/
def find_file_by_name (fs : FS) (target_name : String) : Except String (Option FileEntry) :=
  let target_nfc := normalize_name target_name
  match iterdir fs with
  | .error e => .error e
  | .ok entries => .ok (entries.find? (fun p => normalize_name p.name == target_nfc))

/-- Result of a loader call: the st.error messages it displayed, and the
dict of logical key to table it returned (in insertion order). -/
structure LoadResult where
  errors : List String
  files : List (String × Table)
deriving Repr, DecidableEq

/-- The four fixed environment-data targets requested by load_env_data. -/
def env_targets : List String :=
  ["송도고_환경데이터.csv", "하늘고_환경데이터.csv", "아라고_환경데이터.csv", "동산고_환경데이터.csv"]

/-- Embeds the request loop of load_env_data over an arbitrary target list
(the script instantiates it with env_targets).  A missing file displays an
error and is skipped (the continue); a found file is read with read-csv,
its "time" column converted to datetime, and stored under the target name
with the suffix removed.  Parse failures are not caught and propagate. -/
def load_env_loop (entries : List FileEntry) : List String → Except String LoadResult
  | [] => .ok ⟨[], []⟩
  | t :: ts =>
    match find_file_by_name (.present entries) t with
    | .error e => .error e
    | .ok none =>
      match load_env_loop entries ts with
      | .error e => .error e
      | .ok rest => .ok ⟨("❌ 환경 데이터 파일 누락: " ++ t) :: rest.errors, rest.files⟩
    | .ok (some fp) =>
      match read_csv fp.content with
      | .error e => .error e
      | .ok df =>
        match convert_time df with
        | .error e => .error e
        | .ok df2 =>
          match load_env_loop entries ts with
          | .error e => .error e
          | .ok rest =>
            .ok ⟨rest.errors, (str_replace t "_환경데이터.csv" "", df2) :: rest.files⟩

/-- Embeds load_env_data: when the data directory does not exist, displays
an error and returns the empty dict; otherwise runs the request loop over
the four fixed targets. -/
def load_env_data (fs : FS) : Except String LoadResult :=
  match fs with
  | .absent => .ok ⟨["❌ data 폴더를 찾을 수 없습니다."], []⟩
  | .present entries => load_env_loop entries env_targets

/-- The fixed growth-workbook target requested by load_growth_data. -/
def growth_target : String := "4개교_생육결과데이터.xlsx"

/-- Embeds load_growth_data: resolves the workbook (note: no existence
check on the directory, so resolution itself can raise FileNotFoundError),
displays an error and returns the empty dict when the workbook is absent,
and otherwise stores each sheet's table under the sheet name. -/
def load_growth_data (fs : FS) : Except String LoadResult :=
  match find_file_by_name fs growth_target with
  | .error e => .error e
  | .ok none => .ok ⟨["❌ 생육 결과 XLSX 파일을 찾을 수 없습니다."], []⟩
  | .ok (some f) =>
    match excel_file f.content with
    | .error e => .error e
    | .ok sheets => .ok ⟨[], sheets⟩

/-! ## Condition mapping and aggregation -/

/-- Embeds the fixed ec_conditions dict (school to EC target). -/
def ec_conditions : List (String × ℚ) :=
  [("송도고", 1), ("하늘고", 2), ("아라고", 4), ("동산고", 8)]

/-- Embeds the fixed school_colors dict. -/
def school_colors : List (String × String) :=
  [("송도고", "#1f77b4"), ("하늘고", "#2ca02c"), ("아라고", "#ff7f0e"), ("동산고", "#d62728")]

/-- Embeds Python dict.get(k, None): first matching key, or None. -/
def dictGet {α : Type} (m : List (String × α)) (k : String) : Option α :=
  (m.find? (fun p => p.1 == k)).map (·.2)

/-- Embeds Python dict subscripting m[k]: the value, or KeyError when the
key is absent. -/
def dictIndex {α : Type} (m : List (String × α)) (k : String) : Except String α :=
  match dictGet m k with
  | some v => .ok v
  | none => .error ("KeyError: " ++ k)

/-- One row of the experiment-overview summary table. -/
structure SummaryRow where
  school : String
  ecTarget : Option ℚ
  count : Nat
  color : Option String
deriving Repr, DecidableEq

/-- Embeds the summary_rows loop of Tab 1: one row per growth table, with
the EC target looked up via dict.get defaulting to None. -/
def summary_rows (growth : List (String × Table)) : List SummaryRow :=
  growth.map (fun p => ⟨p.1, dictGet ec_conditions p.1, p.2.rows.length, dictGet school_colors p.1⟩)

/-- Embeds total_count: sum of the growth tables' row counts. -/
def total_count (growth : List (String × Table)) : Nat :=
  (growth.map (fun p => p.2.rows.length)).sum

/-- Numeric value of a cell, for column means; non-numeric cells raise. -/
def cellNum : Cell → Except String ℚ
  | .num q => .ok q
  | _ => .error "TypeError: could not convert value to numeric"

/-- Embeds df[c].mean(): KeyError when the column is absent, else the mean
of its numeric values.  (pandas yields NaN for an empty column; here the
rational division by zero yields 0 — no claim depends on that case.) -/
def seriesMean (df : Table) (c : String) : Except String ℚ :=
  match df.header.findIdx? (· == c) with
  | none => .error ("KeyError: " ++ c)
  | some i =>
    match mapExcept (fun r =>
      match r[i]? with
      | none => .error ("KeyError: " ++ c)
      | some cell => cellNum cell) df.rows with
    | .error e => .error e
    | .ok vs => .ok (vs.sum / (vs.length : ℚ))

/-- One row of the EC-versus-weight aggregation of Tab 3. -/
structure EcRow where
  school : String
  ec : ℚ
  avgWeight : ℚ
  count : Nat
deriving Repr, DecidableEq

/-- Embeds the ec_weight loop of Tab 3: one row per growth table, with the
EC obtained by direct dict subscripting (not .get). -/
def ec_weight_rows (growth : List (String × Table)) : Except String (List EcRow) :=
  mapExcept (fun p =>
    match dictIndex ec_conditions p.1 with
    | .error e => .error e
    | .ok ec =>
      match seriesMean p.2 "생중량(g)" with
      | .error e => .error e
      | .ok w => .ok (⟨p.1, ec, w, p.2.rows.length⟩ : EcRow)) growth

/-! ## Concatenation (pd.concat) -/

/-- Union of the headers in first-appearance order, as pd.concat aligns
columns across frames. -/
def unionCols (hdrs : List (List String)) : List String :=
  hdrs.foldl (fun acc h => acc ++ h.filter (fun c => !acc.contains c)) []

/-- Re-expresses one row over the combined column list, filling columns
the source frame lacks with NaN. -/
def alignRow (cols : List String) (hdr : List String) (row : List Cell) : List Cell :=
  cols.map (fun c =>
    match hdr.findIdx? (· == c) with
    | none => Cell.na
    | some i => (row.get? i).getD Cell.na)

/-- Embeds pd.concat over a list of frames: every row of every frame, in
order, aligned to the union of the columns. -/
def pd_concat (dfs : List Table) : Table :=
  let cols := unionCols (dfs.map Table.header)
  { header := cols,
    rows := (dfs.map (fun df => df.rows.map (alignRow cols df.header))).flatten }

/-- Embeds tmp["학교"] = school on a copy: overwrites the column when it
exists, otherwise appends it. -/
def add_school_col (df : Table) (school : String) : Table :=
  match df.header.findIdx? (· == "학교") with
  | some i => { df with rows := df.rows.map (fun r => r.set i (.str school)) }
  | none => { header := df.header ++ ["학교"], rows := df.rows.map (fun r => r ++ [.str school]) }

/-- Embeds the dist_df construction of Tab 3: tag each growth table with
its school and concatenate them all. -/
def dist_df (growth : List (String × Table)) : Table :=
  pd_concat (growth.map (fun p => add_school_col p.2 p.1))

/-- Embeds pd.concat(env_data.values()), the combined environment table
used for the metric cards and the CSV export. -/
def env_concat (env : List (String × Table)) : Table :=
  pd_concat (env.map (·.2))

/-- Embeds avg_temp: mean temperature over the concatenated environment
data. -/
def avg_temp (env : List (String × Table)) : Except String ℚ :=
  seriesMean (env_concat env) "temperature"

/-- Embeds avg_hum: mean humidity over the concatenated environment
data. -/
def avg_hum (env : List (String × Table)) : Except String ℚ :=
  seriesMean (env_concat env) "humidity"

/-! ## Top-level script flow -/

/-- The aggregates the script computes after the st.stop guard (chart and
widget rendering is display glue and not modelled). -/
structure MainOut where
  summary : List SummaryRow
  total : Nat
  avgTemp : ℚ
  avgHum : ℚ
  ecWeight : List EcRow
  dist : Table
deriving Repr, DecidableEq

/-- The post-guard body of the script: all summary metrics, aggregation
rows, and combined tables, with exceptions propagating. -/
def compute_dashboard (env growth : List (String × Table)) : Except String MainOut :=
  match avg_temp env with
  | .error e => .error e
  | .ok t1 =>
    match avg_hum env with
    | .error e => .error e
    | .ok h1 =>
      match ec_weight_rows growth with
      | .error e => .error e
      | .ok ew =>
        .ok ⟨summary_rows growth, total_count growth, t1, h1, ew, dist_df growth⟩

/-- Embeds the top of the script after the two loader calls: if either
returned dict is empty ("not env_data or not growth_data"), st.stop halts
the script (none) and nothing downstream is computed; otherwise the body
runs. -/
def run_dashboard (env growth : List (String × Table)) : Option (Except String MainOut) :=
  if env.isEmpty || growth.isEmpty then none
  else some (compute_dashboard env growth)

/-! ## Concrete data used in scenario checks -/

/-- A well-formed environment CSV table: numeral time strings plus the
numeric measurement columns the dashboard reads. -/
def sampleEnvTable : Table :=
  ⟨["time", "temperature", "humidity", "ph", "ec"],
   [[.str "1", .num 20, .num 50, .num 6, .num 1]]⟩

/-- sampleEnvTable after its time column is converted to datetimes. -/
def sampleEnvLoaded : Table :=
  ⟨["time", "temperature", "humidity", "ph", "ec"],
   [[.dt 1, .num 20, .num 50, .num 6, .num 1]]⟩

/-- A directory entry holding sampleEnvTable under the first env target. -/
def sampleEnvEntry : FileEntry := ⟨"송도고_환경데이터.csv", .csv sampleEnvTable⟩

/-- What load_env_data returns when only sampleEnvEntry is on disk. -/
def sampleEnvResult : LoadResult :=
  ⟨["❌ 환경 데이터 파일 누락: 하늘고_환경데이터.csv",
    "❌ 환경 데이터 파일 누락: 아라고_환경데이터.csv",
    "❌ 환경 데이터 파일 누락: 동산고_환경데이터.csv"],
   [("송도고", sampleEnvLoaded)]⟩

/-- A well-formed growth sheet with the columns Tab 3 reads. -/
def sampleGrowthTable : Table :=
  ⟨["생중량(g)", "잎 수(장)", "지상부 길이(mm)"], [[.num 10, .num 5, .num 100]]⟩

/-- The growth workbook with a single school sheet. -/
def sampleXlsxEntry : FileEntry :=
  ⟨"4개교_생육결과데이터.xlsx", .xlsx [("송도고", sampleGrowthTable)]⟩

/-- A file unrelated to any request (and not parseable either). -/
def unrelatedEntry : FileEntry := ⟨"readme.txt", .malformed "not a dataset"⟩

/-- An entry matching the first env target whose bytes pd.read-csv rejects. -/
def badCsvEntry : FileEntry := ⟨"송도고_환경데이터.csv", .malformed "ParserError: bad bytes"⟩

/-- Three good environment files for the remaining targets. -/
def goodRestEntries : List FileEntry :=
  [⟨"하늘고_환경데이터.csv", .csv sampleEnvTable⟩,
   ⟨"아라고_환경데이터.csv", .csv sampleEnvTable⟩,
   ⟨"동산고_환경데이터.csv", .csv sampleEnvTable⟩]

/-- The scenario filename of the spec, stored decomposed: NFD jamo for the
visible name whose precomposed form appears in the C4 witness. -/
def nfdName : String :=
  "\u1112\u1161\u11A8\u1100\u116DA_\u1103\u1166\u110B\u1175\u1110\u1165.csv"

/-- A directory entry whose on-disk name uses decomposed jamo. -/
def decomposedEntry : FileEntry := ⟨nfdName, .csv ⟨[], []⟩⟩

/-- Whether the first list is a leading run of the second. -/
def leadRun : List Char → List Char → Bool
  | [], _ => true
  | _ :: _, [] => false
  | a :: as, b :: bs => a == b && leadRun as bs

/-- Whether the first list occurs contiguously inside the second. -/
def subRun (sub : List Char) : List Char → Bool
  | [] => leadRun sub []
  | c :: cs => leadRun sub (c :: cs) || subRun sub cs

/-! ## Helper lemmas -/

theorem add_school_col_len (df : Table) (s : String) :
    (add_school_col df s).rows.length = df.rows.length := by
  unfold add_school_col
  split <;> simp

theorem pd_concat_len (ds : List Table) :
    (pd_concat ds).rows.length = (ds.map (fun df => df.rows.length)).sum := by
  simp only [pd_concat, List.length_flatten, List.map_map, Function.comp_def]
  rw [List.map_congr_left (fun df _ => List.length_map df.rows _)]

theorem find_file_by_name_present (entries : List FileEntry) (target : String) :
    find_file_by_name (.present entries) target =
      .ok (entries.find? (fun p => normalize_name p.name == normalize_name target)) := rfl

/-! ## Claims -/

/-- C4: find_file_by_name returns the first directory entry whose NFC name
equals the NFC form of the target (so precomposed requests resolve
decomposed entries and vice versa), and returns none rather than raising
when no entry matches. -/
theorem claim_C4 (entries : List FileEntry) (target : String) :
    (∀ e, find_file_by_name (.present entries) target = .ok (some e) →
        normalize_name e.name = normalize_name target ∧
        ∃ pre post, entries = pre ++ e :: post ∧
          ∀ x ∈ pre, normalize_name x.name ≠ normalize_name target) ∧
    ((∃ e ∈ entries, normalize_name e.name = normalize_name target) →
        ∃ e, find_file_by_name (.present entries) target = .ok (some e) ∧
          normalize_name e.name = normalize_name target) ∧
    ((∀ e ∈ entries, normalize_name e.name ≠ normalize_name target) →
        find_file_by_name (.present entries) target = .ok none) := by
  have hrun := find_file_by_name_present entries target
  refine ⟨?_, ?_, ?_⟩
  · intro e he
    rw [hrun] at he
    have hfind : entries.find? (fun p => normalize_name p.name == normalize_name target)
        = some e := by injection he
    obtain ⟨hp, pre, post, hsplit, hpre⟩ := List.find?_eq_some.mp hfind
    refine ⟨by simpa using hp, pre, post, hsplit, fun x hx => ?_⟩
    simpa using hpre x hx
  · rintro ⟨e, he, hn⟩
    have hs : (entries.find? (fun p => normalize_name p.name == normalize_name target)).isSome := by
      rw [List.find?_isSome]
      exact ⟨e, he, by simpa using hn⟩
    obtain ⟨e', he'⟩ := Option.isSome_iff_exists.mp hs
    exact ⟨e', by rw [hrun, he'], by simpa using List.find?_some he'⟩
  · intro h
    rw [hrun, List.find?_eq_none.mpr (fun x hx => by simpa using h x hx)]

/-- Witness for C4: a directory entry stored in decomposed jamo is resolved
by a precomposed request for the same visible name. -/
theorem claim_C4_witness :
    (∃ e ∈ [decomposedEntry],
        normalize_name e.name = normalize_name "\uD559\uAD50A_\uB370\uC774\uD130.csv") ∧
    (∃ e, find_file_by_name (.present [decomposedEntry]) "\uD559\uAD50A_\uB370\uC774\uD130.csv"
          = .ok (some e) ∧
        normalize_name e.name = normalize_name "\uD559\uAD50A_\uB370\uC774\uD130.csv") := by
  have hmem : decomposedEntry ∈ [decomposedEntry] := List.mem_singleton.mpr rfl
  have hnorm : normalize_name decomposedEntry.name
      = normalize_name "\uD559\uAD50A_\uB370\uC774\uD130.csv" := by decide
  have h := claim_C4 [decomposedEntry] "\uD559\uAD50A_\uB370\uC774\uD130.csv"
  exact ⟨⟨_, hmem, hnorm⟩, h.2.1 ⟨_, hmem, hnorm⟩⟩

/-- C7: concatenating k tables with n_1..n_k rows, as done for the combined
growth table (dist_df) and the combined environment table, yields exactly
the sum of the row counts: no row dropped, none duplicated. -/
theorem claim_C7 (dfs : List Table) (growth env : List (String × Table)) :
    (pd_concat dfs).rows.length = (dfs.map (fun df => df.rows.length)).sum ∧
    (dist_df growth).rows.length = (growth.map (fun p => p.2.rows.length)).sum ∧
    (env_concat env).rows.length = (env.map (fun p => p.2.rows.length)).sum := by
  refine ⟨pd_concat_len dfs, ?_, ?_⟩
  · rw [dist_df, pd_concat_len]
    simp [List.map_map, Function.comp_def, add_school_col_len]
  · rw [env_concat, pd_concat_len]
    simp [List.map_map, Function.comp_def]

/-- C10: when either loader returns an empty mapping, the script stops at
the st.stop guard and none of the downstream aggregates (summary rows,
metric means, EC table, combined table) are computed. -/
theorem claim_C10 (env growth : List (String × Table))
    (h : env = [] ∨ growth = []) :
    run_dashboard env growth = none := by
  rcases h with h | h <;> subst h <;> simp [run_dashboard]

/-- Witness for C10 at empty loader results. -/
theorem claim_C10_witness : run_dashboard [] [] = none :=
  claim_C10 [] [] (Or.inl rfl)

theorem load_env_loop_ok_keys (entries : List FileEntry) (ts : List String) (r : LoadResult)
    (h : load_env_loop entries ts = .ok r) :
    r.files.map Prod.fst =
      (ts.filter (fun t =>
        (entries.find? (fun p => normalize_name p.name == normalize_name t)).isSome)).map
        (fun t => str_replace t "_환경데이터.csv" "") := by
  induction ts generalizing r with
  | nil =>
    simp only [load_env_loop] at h
    cases h
    simp
  | cons t ts ih =>
    cases hf : entries.find? (fun p => normalize_name p.name == normalize_name t) with
    | none =>
      simp only [load_env_loop, find_file_by_name_present, hf] at h
      cases hrest : load_env_loop entries ts with
      | error e => simp [hrest] at h
      | ok rest =>
        simp only [hrest] at h
        cases h
        simpa [List.filter_cons, hf] using ih rest hrest
    | some fp =>
      simp only [load_env_loop, find_file_by_name_present, hf] at h
      cases hcsv : read_csv fp.content with
      | error e => simp [hcsv] at h
      | ok df =>
        simp only [hcsv] at h
        cases hct : convert_time df with
        | error e => simp [hct] at h
        | ok df2 =>
          simp only [hct] at h
          cases hrest : load_env_loop entries ts with
          | error e => simp [hrest] at h
          | ok rest =>
            simp only [hrest] at h
            cases h
            simpa [List.filter_cons, hf] using ih rest hrest

theorem load_env_loop_all_missing (entries : List FileEntry) (ts : List String)
    (h : ∀ t ∈ ts, entries.find? (fun p => normalize_name p.name == normalize_name t) = none) :
    load_env_loop entries ts =
      .ok ⟨ts.map (fun t => "❌ 환경 데이터 파일 누락: " ++ t), []⟩ := by
  induction ts with
  | nil => rfl
  | cons t ts ih =>
    have hf := h t (List.mem_cons_self t ts)
    have hrest := ih (fun x hx => h x (List.mem_cons_of_mem t hx))
    simp [load_env_loop, find_file_by_name_present, hf, hrest]

/-- C1 as stated is false: for the fixed four-target request and an empty
data directory, the mapping load_env_data returns has an empty key set,
omitting all four requested keys (there is no Missing outcome in the
returned value). -/
theorem claim_C1_counterexample :
    (load_env_data (.present [])).map (fun r => r.files.map Prod.fst) = .ok [] ∧
    env_targets.map (fun t => str_replace t "_환경데이터.csv" "") =
      ["송도고", "하늘고", "아라고", "동산고"] := by
  exact ⟨rfl, by decide⟩

/-- C1 amended: the key list of the mapping load_env_data returns equals
the requested targets that resolve to a directory entry, in request order,
each stripped of the dataset suffix; requested keys whose files are
missing are omitted from the mapping (reported only as displayed error
messages). -/
theorem claim_C1 (entries : List FileEntry) (r : LoadResult)
    (h : load_env_data (.present entries) = .ok r) :
    r.files.map Prod.fst =
      (env_targets.filter (fun t =>
        (entries.find? (fun p => normalize_name p.name == normalize_name t)).isSome)).map
        (fun t => str_replace t "_환경데이터.csv" "") :=
  load_env_loop_ok_keys entries env_targets r h

/-- Witness for C1: with exactly one of the four requested files on disk,
the returned key list is that one resolved key. -/
theorem claim_C1_witness :
    load_env_data (.present [sampleEnvEntry]) = .ok sampleEnvResult ∧
    sampleEnvResult.files.map Prod.fst =
      (env_targets.filter (fun t =>
        ([sampleEnvEntry].find? (fun p => normalize_name p.name == normalize_name t)).isSome)).map
        (fun t => str_replace t "_환경데이터.csv" "") :=
  ⟨rfl, claim_C1 [sampleEnvEntry] sampleEnvResult rfl⟩

/-- C2 as stated is false: with one unparseable file and three good files
on disk, load_env_data raises the parse error out of the batch instead of
returning one ParseError plus three Loaded entries. -/
theorem claim_C2_counterexample :
    load_env_data (.present (badCsvEntry :: goodRestEntries)) =
      .error "ParserError: bad bytes" := rfl

/-- C2 amended: a parse failure on a resolved file propagates out of the
batch loop immediately, aborting the batch: the loop returns the raised
exception, the remaining requests are never processed, and no outcome is
recorded for any key. -/
theorem claim_C2 (entries : List FileEntry) (t : String) (ts : List String)
    (fp : FileEntry) (e : String)
    (hf : entries.find? (fun p => normalize_name p.name == normalize_name t) = some fp)
    (he : read_csv fp.content = .error e) :
    load_env_loop entries (t :: ts) = .error e := by
  simp [load_env_loop, find_file_by_name_present, hf, he]

/-- Witness for C2: the first env target resolves to malformed bytes and
the loop aborts with that parse error, whatever requests remain. -/
theorem claim_C2_witness :
    ((badCsvEntry :: goodRestEntries).find?
        (fun p => normalize_name p.name == normalize_name "송도고_환경데이터.csv")
      = some badCsvEntry) ∧
    read_csv badCsvEntry.content = .error "ParserError: bad bytes" ∧
    load_env_loop (badCsvEntry :: goodRestEntries)
        ("송도고_환경데이터.csv" :: ["하늘고_환경데이터.csv"]) = .error "ParserError: bad bytes" :=
  ⟨by decide, rfl,
    claim_C2 (badCsvEntry :: goodRestEntries) "송도고_환경데이터.csv" ["하늘고_환경데이터.csv"]
      badCsvEntry "ParserError: bad bytes" (by decide) rfl⟩

/-- C3 as stated is false: on a missing data directory, load_growth_data
propagates FileNotFoundError from the directory enumeration instead of
returning a well-formed report. -/
theorem claim_C3_counterexample :
    load_growth_data .absent = .error "FileNotFoundError" := rfl

/-- C3 amended: load_env_data is total over directory state (missing
directory, empty directory, or only unrelated entries all yield well-formed
all-missing reports), and load_growth_data yields a well-formed empty
report when the directory exists but holds no matching workbook; but for a
missing directory load_growth_data raises FileNotFoundError rather than
returning a report. -/
theorem claim_C3 (entries : List FileEntry)
    (henv : ∀ t ∈ env_targets,
      entries.find? (fun p => normalize_name p.name == normalize_name t) = none)
    (hgro : entries.find? (fun p => normalize_name p.name == normalize_name growth_target) = none) :
    load_env_data .absent = .ok ⟨["❌ data 폴더를 찾을 수 없습니다."], []⟩ ∧
    load_env_data (.present entries) =
      .ok ⟨env_targets.map (fun t => "❌ 환경 데이터 파일 누락: " ++ t), []⟩ ∧
    load_growth_data (.present entries) =
      .ok ⟨["❌ 생육 결과 XLSX 파일을 찾을 수 없습니다."], []⟩ ∧
    load_growth_data .absent = .error "FileNotFoundError" := by
  refine ⟨rfl, load_env_loop_all_missing entries env_targets henv, ?_, rfl⟩
  simp [load_growth_data, find_file_by_name_present, hgro]

/-- Witness for C3: a directory holding only an unrelated file matches no
request, and both loaders return well-formed empty reports. -/
theorem claim_C3_witness :
    (∀ t ∈ env_targets,
      [unrelatedEntry].find? (fun p => normalize_name p.name == normalize_name t) = none) ∧
    load_env_data (.present [unrelatedEntry]) =
      .ok ⟨env_targets.map (fun t => "❌ 환경 데이터 파일 누락: " ++ t), []⟩ ∧
    load_growth_data (.present [unrelatedEntry]) =
      .ok ⟨["❌ 생육 결과 XLSX 파일을 찾을 수 없습니다."], []⟩ :=
  ⟨by decide, (claim_C3 [unrelatedEntry] (by decide) (by decide)).2.1,
    (claim_C3 [unrelatedEntry] (by decide) (by decide)).2.2.1⟩

theorem mapExcept_ok_mem {α β : Type} (f : α → Except String β) (l : List α) (l' : List β)
    (h : mapExcept f l = .ok l') : ∀ b ∈ l', ∃ a ∈ l, f a = .ok b := by
  induction l generalizing l' with
  | nil =>
    simp only [mapExcept] at h
    cases h
    simp
  | cons a as ih =>
    cases hf : f a with
    | error e => simp [mapExcept, hf] at h
    | ok b0 =>
      simp only [mapExcept, hf] at h
      cases hrest : mapExcept f as with
      | error e => simp [hrest] at h
      | ok bs =>
        simp only [hrest] at h
        cases h
        intro b hb
        rcases List.mem_cons.mp hb with rfl | hb
        · exact ⟨a, List.mem_cons_self a as, hf⟩
        · obtain ⟨a', ha', hfa⟩ := ih bs hrest b hb
          exact ⟨a', List.mem_cons_of_mem a ha', hfa⟩

theorem to_datetime_cell_ok (c c' : Cell) (h : to_datetime_cell c = .ok c') :
    ∃ n, c' = .dt n := by
  cases c with
  | str s =>
    simp only [to_datetime_cell] at h
    cases hp : parse_dt s with
    | none => simp [hp] at h
    | some n =>
      simp only [hp] at h
      cases h
      exact ⟨n, rfl⟩
  | dt n =>
    simp only [to_datetime_cell] at h
    cases h
    exact ⟨n, rfl⟩
  | num q => simp [to_datetime_cell] at h
  | na => simp [to_datetime_cell] at h

theorem convert_cell_ok (i : Nat) (r row : List Cell)
    (h : convert_cell i r = .ok row) : ∃ n, row[i]? = some (.dt n) := by
  cases hg : r[i]? with
  | none => simp [convert_cell, hg] at h
  | some c =>
    simp only [convert_cell, hg] at h
    cases ht : to_datetime_cell c with
    | error e => simp [ht] at h
    | ok c' =>
      simp only [ht] at h
      cases h
      obtain ⟨n, rfl⟩ := to_datetime_cell_ok c c' ht
      have hlt : i < r.length := by
        by_contra hge
        rw [List.getElem?_eq_none (Nat.le_of_not_lt hge)] at hg
        cases hg
      exact ⟨n, by rw [List.getElem?_set_self]; simp [List.getElem?_eq_getElem, hlt]⟩

theorem convert_time_ok (df df2 : Table) (h : convert_time df = .ok df2) :
    ∃ i, df2.header.findIdx? (· == "time") = some i ∧
      ∀ row ∈ df2.rows, ∃ n, row[i]? = some (.dt n) := by
  cases hi : df.header.findIdx? (· == "time") with
  | none => simp [convert_time, hi] at h
  | some i =>
    simp only [convert_time, hi] at h
    cases hm : mapExcept (convert_cell i) df.rows with
    | error e => simp [hm] at h
    | ok rows =>
      simp only [hm] at h
      cases h
      refine ⟨i, hi, fun row hrow => ?_⟩
      obtain ⟨r, _, hfr⟩ := mapExcept_ok_mem _ df.rows rows hm row hrow
      exact convert_cell_ok i r row hfr

theorem load_env_loop_files_mem (entries : List FileEntry) (ts : List String)
    (r : LoadResult) (k : String) (df : Table)
    (h : load_env_loop entries ts = .ok r) (hm : (k, df) ∈ r.files) :
    ∃ t ∈ ts, k = str_replace t "_환경데이터.csv" "" ∧ ∃ df0, convert_time df0 = .ok df := by
  induction ts generalizing r with
  | nil =>
    simp only [load_env_loop] at h
    cases h
    simp at hm
  | cons t ts ih =>
    cases hf : entries.find? (fun p => normalize_name p.name == normalize_name t) with
    | none =>
      simp only [load_env_loop, find_file_by_name_present, hf] at h
      cases hrest : load_env_loop entries ts with
      | error e => simp [hrest] at h
      | ok rest =>
        simp only [hrest] at h
        cases h
        obtain ⟨t', ht', hk, hdf⟩ := ih rest hrest hm
        exact ⟨t', List.mem_cons_of_mem t ht', hk, hdf⟩
    | some fp =>
      simp only [load_env_loop, find_file_by_name_present, hf] at h
      cases hcsv : read_csv fp.content with
      | error e => simp [hcsv] at h
      | ok df0 =>
        simp only [hcsv] at h
        cases hct : convert_time df0 with
        | error e => simp [hct] at h
        | ok df2 =>
          simp only [hct] at h
          cases hrest : load_env_loop entries ts with
          | error e => simp [hrest] at h
          | ok rest =>
            simp only [hrest] at h
            cases h
            rcases List.mem_cons.mp hm with heq | hm'
            · injection heq with hk hdf
              subst hk
              subst hdf
              exact ⟨t, List.mem_cons_self t ts, rfl, df0, hct⟩
            · obtain ⟨t', ht', hk, hdf⟩ := ih rest hrest hm'
              exact ⟨t', List.mem_cons_of_mem t ht', hk, hdf⟩

/-- C9: every entry of the mapping load_env_data returns is keyed by a
requested target stripped of its dataset suffix, and its table's time
column holds only converted datetime values. -/
theorem claim_C9 (entries : List FileEntry) (r : LoadResult) (k : String) (df : Table)
    (h : load_env_data (.present entries) = .ok r)
    (hmem : (k, df) ∈ r.files) :
    (∃ t ∈ env_targets, k = str_replace t "_환경데이터.csv" "") ∧
    ∃ i, df.header.findIdx? (· == "time") = some i ∧
      ∀ row ∈ df.rows, ∃ n, row[i]? = some (.dt n) := by
  obtain ⟨t, ht, hk, df0, hct⟩ := load_env_loop_files_mem entries env_targets r k df h hmem
  exact ⟨⟨t, ht, hk⟩, convert_time_ok df0 df hct⟩

/-- Witness for C9: the one loaded sample file is stored under the key with
the suffix stripped and its time column converted. -/
theorem claim_C9_witness :
    load_env_data (.present [sampleEnvEntry]) = .ok sampleEnvResult ∧
    ("송도고", sampleEnvLoaded) ∈ sampleEnvResult.files ∧
    ((∃ t ∈ env_targets, "송도고" = str_replace t "_환경데이터.csv" "") ∧
      ∃ i, sampleEnvLoaded.header.findIdx? (· == "time") = some i ∧
        ∀ row ∈ sampleEnvLoaded.rows, ∃ n, row[i]? = some (.dt n)) :=
  ⟨rfl, by simp [sampleEnvResult],
    claim_C9 [sampleEnvEntry] sampleEnvResult "송도고" sampleEnvLoaded rfl
      (by simp [sampleEnvResult])⟩

/-- C5 as stated is false: the Tab 3 aggregation subscripts ec_conditions
directly, so a growth sheet keyed by a school absent from the mapping
raises KeyError instead of yielding a sentinel. -/
theorem claim_C5_counterexample :
    ec_weight_rows [("X", sampleGrowthTable)] = .error "KeyError: X" := rfl

/-- C5 amended: the overview summary looks conditions up with dict.get and
yields the None sentinel for an absent key (no exception, no zero), but
the EC-weight aggregation subscripts the mapping directly and raises
KeyError for the same absent key. -/
theorem claim_C5 (school : String) (df : Table)
    (h : ec_conditions.find? (fun p => p.1 == school) = none) :
    (summary_rows [(school, df)]).map SummaryRow.ecTarget = [none] ∧
    ec_weight_rows [(school, df)] = .error ("KeyError: " ++ school) := by
  constructor
  · simp [summary_rows, dictGet, h]
  · simp [ec_weight_rows, mapExcept, dictIndex, dictGet, h]

/-- Witness for C5 at the absent key X. -/
theorem claim_C5_witness :
    ec_conditions.find? (fun p => p.1 == "X") = none ∧
    (summary_rows [("X", sampleGrowthTable)]).map SummaryRow.ecTarget = [none] ∧
    ec_weight_rows [("X", sampleGrowthTable)] = .error ("KeyError: " ++ "X") :=
  ⟨by decide, (claim_C5 "X" sampleGrowthTable (by decide)).1,
    (claim_C5 "X" sampleGrowthTable (by decide)).2⟩

/-- C6 as stated is false: for a missing data directory load_env_data
returns a successful empty mapping identical to the one returned when the
directory exists but nothing matches, rather than a distinguished report
state or a raised condition. -/
theorem claim_C6_counterexample :
    (load_env_data .absent).map LoadResult.files =
      (load_env_data (.present [])).map LoadResult.files ∧
    load_env_data .absent = .ok ⟨["❌ data 폴더를 찾을 수 없습니다."], []⟩ :=
  ⟨rfl, rfl⟩

/-- C6 amended: the missing-directory condition is surfaced only through
the displayed error-message text, which differs from the per-file missing
messages; the returned mapping itself is a plain empty dict, equal in the
missing-directory and nothing-matched states. -/
theorem claim_C6 :
    (load_env_data .absent).map LoadResult.files = .ok [] ∧
    (load_env_data (.present [])).map LoadResult.files = .ok [] ∧
    (load_env_data .absent).map LoadResult.errors =
      .ok ["❌ data 폴더를 찾을 수 없습니다."] ∧
    (load_env_data (.present [])).map LoadResult.errors =
      .ok (env_targets.map (fun t => "❌ 환경 데이터 파일 누락: " ++ t)) ∧
    ["❌ data 폴더를 찾을 수 없습니다."] ≠
      env_targets.map (fun t => "❌ 환경 데이터 파일 누락: " ++ t) :=
  ⟨rfl, rfl, rfl, rfl, by decide⟩

/-- C8 as stated is false: each sheet is recorded under the sheet name
alone, which does not contain the workbook's base key, so the logical key
is not derived from the base key plus the sheet name. -/
theorem claim_C8_counterexample :
    load_growth_data (.present [sampleXlsxEntry]) =
      .ok ⟨[], [("송도고", sampleGrowthTable)]⟩ ∧
    subRun "4개교_생육결과데이터".data "송도고".data = false :=
  ⟨rfl, by decide⟩

/-- C8 amended: when the resolved file is a multi-sheet workbook, parsing
produces one table per sheet and each table is recorded under the sheet
name alone as its logical key. -/
theorem claim_C8 (fs : FS) (f : FileEntry) (sheets : List (String × Table))
    (hfind : find_file_by_name fs growth_target = .ok (some f))
    (hx : f.content = .xlsx sheets) :
    load_growth_data fs = .ok ⟨[], sheets⟩ := by
  simp [load_growth_data, hfind, hx, excel_file]

/-- Witness for C8 on the one-sheet sample workbook. -/
theorem claim_C8_witness :
    find_file_by_name (.present [sampleXlsxEntry]) growth_target
      = .ok (some sampleXlsxEntry) ∧
    sampleXlsxEntry.content = .xlsx [("송도고", sampleGrowthTable)] ∧
    load_growth_data (.present [sampleXlsxEntry]) =
      .ok ⟨[], [("송도고", sampleGrowthTable)]⟩ :=
  ⟨rfl, rfl, claim_C8 (.present [sampleXlsxEntry]) sampleXlsxEntry
    [("송도고", sampleGrowthTable)] rfl rfl⟩

end PlantDash
